import Mathlib

set_option maxHeartbeats 1000000
set_option linter.unusedVariables false

noncomputable section

/-! Shallow embedding of the `NeuralMap3D` class of
`src/AutoFlowAI/web/static/js/dashboard.js` (lines 362-496): the 3D
consciousness visualization that receives raw JSON snapshots over a
WebSocket and rebuilds a Three.js scene from each one.

Modelling conventions: JavaScript numbers are rationals extended with
`undefined` and `NaN`; the Three.js scene is the list of mesh/line
objects added by the class (the static container - camera, lights,
renderer - is created once in `initialize` and never touched by the
update path, so it is not part of the modelled scene); each created
object receives a fresh numeric id, and `scene.remove(obj)` removes the
object with that id. -/

/-- A module entry of a raw inbound snapshot. `activity_level` is `none`
when the field is absent from the JSON object (JS `undefined`). -/
structure RawModule where
  name : String
  activity_level : Option ℚ
deriving DecidableEq

/-- A raw inbound message, as produced by `JSON.parse(event.data)`.
Each field is `none` when the key is absent (destructuring then yields
JS `undefined`). -/
structure RawMessage where
  consciousness_level : Option String
  awareness_score : Option ℚ
  modules : Option (List RawModule)
deriving DecidableEq

/-- A JavaScript numeric value as it flows through the dashboard: a
number, `undefined` (a destructured field that was absent), or `NaN`
(the result of arithmetic involving `undefined`). -/
inductive JsNum where
  | undef
  | nan
  | num (q : ℚ)
deriving DecidableEq

/-- A JS value read from an optional field: present numbers stay
numbers, an absent field reads as `undefined`. -/
def jsOfOpt : Option ℚ → JsNum
  | none => .undef
  | some q => .num q

/-- JS multiplication: any operand that is not a number yields `NaN`. -/
def JsNum.mul : JsNum → JsNum → JsNum
  | .num a, .num b => .num (a * b)
  | _, _ => .nan

/-- JS addition restricted to numeric operands: any operand that is not
a number yields `NaN` (no string concatenation occurs on this path). -/
def JsNum.add : JsNum → JsNum → JsNum
  | .num a, .num b => .num (a + b)
  | _, _ => .nan

/-- The record returned by `createNode` (dashboard.js 459):
`{ mesh, position, activity, label, type }`, with the mesh identified by
its scene id. `label` is optional because the label of the central node is
the possibly-absent `consciousness_level` field. -/
structure NodeRec where
  meshId : ℕ
  posX : ℝ
  posY : ℝ
  posZ : ℝ
  activity : JsNum
  label : Option String
  type : String

/-- A Three.js sphere mesh as configured by `createNode`
(dashboard.js 447-457): `SphereGeometry(activity * 5 + 1, 32, 32)` and a
`MeshPhongMaterial` whose color and emissive color come from
`getNodeColor` and whose `emissiveIntensity` is the raw activity. -/
structure MeshData where
  id : ℕ
  posX : ℝ
  posY : ℝ
  posZ : ℝ
  size : JsNum
  color : ℕ
  emissive : ℕ
  emissiveIntensity : JsNum

/-- A Three.js line as configured by `createConnection`
(dashboard.js 472-484): endpoints are the two node positions, material
`LineBasicMaterial` with color `0x888888`, `opacity: strength`,
`transparent: true`. -/
structure LineData where
  id : ℕ
  p1X : ℝ
  p1Y : ℝ
  p1Z : ℝ
  p2X : ℝ
  p2Y : ℝ
  p2Z : ℝ
  color : ℕ
  opacity : JsNum
  transparent : Bool

/-- An object living in the Three.js scene: a node mesh or an edge
line. -/
inductive SceneObj where
  | mesh (m : MeshData)
  | line (l : LineData)

/-- The scene id of an object. -/
def SceneObj.objId : SceneObj → ℕ
  | .mesh m => m.id
  | .line l => l.id

/-- The mutable state of a `NeuralMap3D` instance: the scene contents,
the `this.nodes` map (a JS `Map`, modelled as an insertion-ordered
association list), the `this.connections` array, and a fresh-id counter
for newly created scene objects. -/
structure NMState where
  nextId : ℕ
  scene : List SceneObj
  nodes : List (String × NodeRec)
  connections : List LineData

/-- The state right after `initialize` (dashboard.js 375-400):
`this.nodes = new Map()`, `this.connections = []`, and no dynamic
objects in the scene. -/
def initNeuralMap : NMState :=
  { nextId := 0, scene := [], nodes := [], connections := [] }

/-- `JS Map.get`: the value stored under a key, if any. -/
def mapGet : List (String × NodeRec) → String → Option NodeRec
  | [], _ => none
  | p :: rest, k => if p.1 = k then some p.2 else mapGet rest k

/-- `JS Map.set`: replace the value of an existing key in place (keys
are unique in a JS `Map`, and every map in this development is built
from `[]` by `mapSet`, so keys never repeat), else append a new entry
preserving insertion order. -/
def mapSet : List (String × NodeRec) → String → NodeRec → List (String × NodeRec)
  | [], k, v => [(k, v)]
  | p :: rest, k, v => if p.1 = k then (k, v) :: rest else p :: mapSet rest k v

/-- `getNodeColor` (dashboard.js 462-470): a fixed lookup table with
fallback `0xffffff` via `colors[type] || 0xffffff` (no table value is
falsy, so `||` behaves as a lookup-miss fallback); the `activity`
argument is ignored. -/
def getNodeColor (type : String) (activity : JsNum) : ℕ :=
  if type = "consciousness" then 0xff6b6b
  else if type = "module" then 0x4ecdc4
  else if type = "agent" then 0x45b7d1
  else if type = "memory" then 0x96ceb4
  else 0xffffff

/-- `createNode` (dashboard.js 447-460): build a sphere mesh of radius
`activity * 5 + 1` with color/emissive from `getNodeColor` and
`emissiveIntensity: activity`, add it to the scene, and return the node
record `{ mesh, position, activity, label, type }`. -/
def createNode (s : NMState) (px py pz : ℝ) (activity : JsNum)
    (label : Option String) (type : String) : NodeRec × NMState :=
  let color := getNodeColor type activity
  let mesh : MeshData :=
    { id := s.nextId, posX := px, posY := py, posZ := pz,
      size := (activity.mul (.num 5)).add (.num 1),
      color := color, emissive := color, emissiveIntensity := activity }
  let node : NodeRec :=
    { meshId := s.nextId, posX := px, posY := py, posZ := pz,
      activity := activity, label := label, type := type }
  (node, { s with nextId := s.nextId + 1, scene := s.scene ++ [SceneObj.mesh mesh] })

/-- `createConnection` (dashboard.js 472-484): build a line from
`node1.position` to `node2.position` with `opacity: strength` and
`transparent: true`, add it to the scene, and push it onto
`this.connections`. -/
def createConnection (s : NMState) (n1 n2 : NodeRec) (strength : JsNum) : NMState :=
  let line : LineData :=
    { id := s.nextId, p1X := n1.posX, p1Y := n1.posY, p1Z := n1.posZ,
      p2X := n2.posX, p2Y := n2.posY, p2Z := n2.posZ,
      color := 0x888888, opacity := strength, transparent := true }
  { s with
    nextId := s.nextId + 1,
    scene := s.scene ++ [SceneObj.line line],
    connections := s.connections ++ [line] }

/-- The scene ids currently tracked by the instance: the mesh of every
entry of `this.nodes` and every line in `this.connections`. -/
def trackedIds (s : NMState) : List ℕ :=
  s.nodes.map (fun p => p.2.meshId) ++ s.connections.map LineData.id

/-- `clearNodes` (dashboard.js 486-491): remove every tracked mesh and
line from the scene (ids are unique, so removal by id matches
`scene.remove` on the object), then empty `this.nodes` and
`this.connections`. Untracked scene objects are NOT removed. -/
def clearNodes (s : NMState) : NMState :=
  { s with
    scene := s.scene.filter (fun o => !decide (o.objId ∈ trackedIds s)),
    nodes := [], connections := [] }

/-- The angle of the `i`-th of `N` modules (dashboard.js 433):
`(index / modules.length) * Math.PI * 2`. -/
def moduleAngle (i N : ℕ) : ℝ := ((i : ℝ) / (N : ℝ)) * Real.pi * 2

/-- The `modules?.forEach((module, index) => ...)` loop of
`updateNeuralMap` (dashboard.js 432-444): for each module, compute the
radial position with `radius = 20`, create its node, register it in
`this.nodes` under the module name, and connect it to the central
node with strength `awareness_score`. -/
def addModules (N : ℕ) (aw : JsNum) (central : NodeRec) :
    ℕ → List RawModule → NMState → NMState
  | _, [], s => s
  | i, m :: rest, s =>
      let angle := moduleAngle i N
      let px := Real.cos angle * 20
      let py := Real.sin angle * 20
      let step := createNode s px py 0 (jsOfOpt m.activity_level) (some m.name) "module"
      let s2 := { step.2 with nodes := mapSet step.2.nodes m.name step.1 }
      let s3 := createConnection s2 central step.1 aw
      addModules N aw central (i + 1) rest s3

/-- `updateNeuralMap` (dashboard.js 417-445): unconditionally call
`clearNodes`, destructure the raw message (no validation of any field),
create the central consciousness node at the origin with activity
`awareness_score` and label `consciousness_level`, register it under
the literal key `"consciousness"`, then process the modules (skipped
entirely when `modules` is absent, via `modules?.forEach`). -/
def updateNeuralMap (s : NMState) (d : RawMessage) : NMState :=
  let s0 := clearNodes s
  let aw := jsOfOpt d.awareness_score
  let step := createNode s0 0 0 0 aw d.consciousness_level "consciousness"
  let s2 := { step.2 with nodes := mapSet step.2.nodes "consciousness" step.1 }
  match d.modules with
  | none => s2
  | some mods => addModules mods.length aw step.1 0 mods s2

/-- The events a WebSocket can deliver to its handlers. -/
inductive WsEvent where
  | message (data : RawMessage)
  | close
  | error

/-- The state owned by `startRealtimeUpdates` (dashboard.js 408-415):
the visualization state plus the list of delays of reconnect attempts
that have been scheduled (the source never schedules any). -/
structure ConnState where
  neural : NMState
  scheduledReconnects : List ℚ

/-- Event dispatch for the WebSocket opened in `startRealtimeUpdates`
(dashboard.js 408-415): the code assigns only `ws.onmessage`, which
parses the frame and calls `updateNeuralMap`; no `onclose` or `onerror`
handler exists, so close and error events run no code at all - nothing
is scheduled and the state is unchanged. -/
def wsStep : WsEvent → ConnState → ConnState
  | .message d, c => { c with neural := updateNeuralMap c.neural d }
  | .close, c => c
  | .error, c => c

/-! Derived observations and closed forms used to state and settle the
claims. These are not source translations but descriptions of what the
functions above produce; each is proved against the source embedding
below. -/

/-- The number of node meshes among a list of scene objects. -/
def nodeMeshCount (l : List SceneObj) : ℕ :=
  l.countP (fun o => match o with | .mesh _ => true | .line _ => false)

/-- The number of edge lines among a list of scene objects. -/
def lineCount (l : List SceneObj) : ℕ :=
  l.countP (fun o => match o with | .mesh _ => false | .line _ => true)

/-- The number of modules carried by a raw message (`0` when the
`modules` field is absent). -/
def moduleCount (d : RawMessage) : ℕ :=
  match d.modules with
  | none => 0
  | some mods => mods.length

/-- A message whose module names are pairwise distinct and none of
which is the literal string `"consciousness"` (the key under which the
central node is registered). -/
def goodNames (d : RawMessage) : Bool :=
  match d.modules with
  | none => true
  | some mods =>
      decide ((mods.map RawModule.name).Nodup ∧ "consciousness" ∉ mods.map RawModule.name)

/-- Every object in the scene is tracked (its id is the mesh id of a
registered node or the id of a stored connection), so the next
`clearNodes` empties the scene. -/
def fullyTracked (s : NMState) : Prop :=
  ∀ o ∈ s.scene, o.objId ∈ trackedIds s

instance (s : NMState) : Decidable (fullyTracked s) :=
  List.decidableBAll _ s.scene

/-- The clamping function described by the spec: for an input `v` the
value used for rendering should be `max(0, min(1, v))`. The source uses
raw values instead; the two are compared in the claims below. -/
def specClamp01 (v : ℚ) : ℚ := max 0 (min 1 v)

/-- The node record created for the `i`-th of `N` modules when its mesh
receives id `nid`. -/
def moduleNodeRec (nid i N : ℕ) (m : RawModule) : NodeRec :=
  { meshId := nid,
    posX := Real.cos (moduleAngle i N) * 20,
    posY := Real.sin (moduleAngle i N) * 20, posZ := 0,
    activity := jsOfOpt m.activity_level, label := some m.name,
    type := "module" }

/-- The mesh created for the `i`-th of `N` modules under id `nid`. -/
def moduleMeshData (nid i N : ℕ) (m : RawModule) : MeshData :=
  { id := nid,
    posX := Real.cos (moduleAngle i N) * 20,
    posY := Real.sin (moduleAngle i N) * 20, posZ := 0,
    size := ((jsOfOpt m.activity_level).mul (.num 5)).add (.num 1),
    color := getNodeColor "module" (jsOfOpt m.activity_level),
    emissive := getNodeColor "module" (jsOfOpt m.activity_level),
    emissiveIntensity := jsOfOpt m.activity_level }

/-- The line created between the central node `c` and the `i`-th of `N`
modules under id `nid`, with strength `aw`. -/
def moduleLineData (nid : ℕ) (c : NodeRec) (i N : ℕ) (aw : JsNum) : LineData :=
  { id := nid, p1X := c.posX, p1Y := c.posY, p1Z := c.posZ,
    p2X := Real.cos (moduleAngle i N) * 20,
    p2Y := Real.sin (moduleAngle i N) * 20, p2Z := 0,
    color := 0x888888, opacity := aw, transparent := true }

/-- The central consciousness node record created from message `d` when
its mesh receives id `n`. -/
def centralNodeRec (n : ℕ) (d : RawMessage) : NodeRec :=
  { meshId := n, posX := 0, posY := 0, posZ := 0,
    activity := jsOfOpt d.awareness_score, label := d.consciousness_level,
    type := "consciousness" }

/-- The central consciousness mesh created from message `d` under
id `n`. -/
def centralMeshData (n : ℕ) (d : RawMessage) : MeshData :=
  { id := n, posX := 0, posY := 0, posZ := 0,
    size := ((jsOfOpt d.awareness_score).mul (.num 5)).add (.num 1),
    color := getNodeColor "consciousness" (jsOfOpt d.awareness_score),
    emissive := getNodeColor "consciousness" (jsOfOpt d.awareness_score),
    emissiveIntensity := jsOfOpt d.awareness_score }

/-- The scene objects the module loop appends, starting at fresh id
`nid` and loop index `i`. -/
def builtObjs (c : NodeRec) (aw : JsNum) (N : ℕ) : ℕ → ℕ → List RawModule → List SceneObj
  | _, _, [] => []
  | nid, i, m :: rest =>
      SceneObj.mesh (moduleMeshData nid i N m) ::
        SceneObj.line (moduleLineData (nid + 1) c i N aw) ::
          builtObjs c aw N (nid + 2) (i + 1) rest

/-- The connection lines the module loop pushes, starting at fresh id
`nid` and loop index `i`. -/
def lineRecs (c : NodeRec) (aw : JsNum) (N : ℕ) : ℕ → ℕ → List RawModule → List LineData
  | _, _, [] => []
  | nid, i, m :: rest =>
      moduleLineData (nid + 1) c i N aw :: lineRecs c aw N (nid + 2) (i + 1) rest

/-- The node-map entries the module loop appends when no name collides,
starting at fresh id `nid` and loop index `i`. -/
def modRecs (N : ℕ) : ℕ → ℕ → List RawModule → List (String × NodeRec)
  | _, _, [] => []
  | nid, i, m :: rest =>
      (m.name, moduleNodeRec nid i N m) :: modRecs N (nid + 2) (i + 1) rest

/-- The position (0-based, from the tail) and content of the last
module in the list bearing a given name, if any. -/
def lastOcc (k : String) : List RawModule → Option (ℕ × RawModule)
  | [] => none
  | m :: rest =>
      match lastOcc k rest with
      | some (p, mm) => some (p + 1, mm)
      | none => if m.name = k then some (0, m) else none


/-! Helper lemmas about the embedded operations. -/

theorem mapGet_mapSet_self (m : List (String × NodeRec)) (k : String) (v : NodeRec) :
    mapGet (mapSet m k v) k = some v := by
  induction m with
  | nil => simp [mapGet, mapSet]
  | cons p rest ih =>
      by_cases h : p.1 = k
      · simp [mapGet, mapSet, h]
      · simp [mapGet, mapSet, h, ih]

theorem mapGet_mapSet_ne (m : List (String × NodeRec)) (k k2 : String) (v : NodeRec)
    (h : k2 ≠ k) : mapGet (mapSet m k v) k2 = mapGet m k2 := by
  induction m with
  | nil => simp [mapGet, mapSet, h.symm]
  | cons p rest ih =>
      by_cases hp : p.1 = k
      · simp [mapGet, mapSet, hp, h.symm]
      · simp only [mapSet, hp, if_false]
        by_cases hp2 : p.1 = k2
        · simp [mapGet, hp2]
        · simp [mapGet, hp2, ih]

theorem addModules_scene (N : ℕ) (aw : JsNum) (c : NodeRec) (mods : List RawModule) :
    ∀ (i : ℕ) (s : NMState),
      (addModules N aw c i mods s).scene = s.scene ++ builtObjs c aw N s.nextId i mods := by
  induction mods with
  | nil => intro i s; simp [addModules, builtObjs]
  | cons m rest ih =>
      intro i s
      simp only [addModules, createNode, createConnection, builtObjs]
      rw [ih]
      have h2 : s.nextId + 1 + 1 = s.nextId + 2 := rfl
      simp [moduleMeshData, moduleLineData, h2]

theorem addModules_connections (N : ℕ) (aw : JsNum) (c : NodeRec) (mods : List RawModule) :
    ∀ (i : ℕ) (s : NMState),
      (addModules N aw c i mods s).connections
        = s.connections ++ lineRecs c aw N s.nextId i mods := by
  induction mods with
  | nil => intro i s; simp [addModules, lineRecs]
  | cons m rest ih =>
      intro i s
      simp only [addModules, createNode, createConnection, lineRecs]
      rw [ih]
      have h2 : s.nextId + 1 + 1 = s.nextId + 2 := rfl
      simp [moduleLineData, h2]

theorem addModules_nextId (N : ℕ) (aw : JsNum) (c : NodeRec) (mods : List RawModule) :
    ∀ (i : ℕ) (s : NMState),
      (addModules N aw c i mods s).nextId = s.nextId + 2 * mods.length := by
  induction mods with
  | nil => intro i s; simp [addModules]
  | cons m rest ih =>
      intro i s
      simp only [addModules, createNode, createConnection]
      rw [ih]
      simp
      omega

theorem mapSet_fresh (m : List (String × NodeRec)) (k : String) (v : NodeRec)
    (h : ∀ p ∈ m, p.1 ≠ k) : mapSet m k v = m ++ [(k, v)] := by
  induction m with
  | nil => simp [mapSet]
  | cons p rest ih =>
      have hp : p.1 ≠ k := h p (by simp)
      simp only [mapSet, hp, if_false, List.cons_append]
      rw [ih]
      intro q hq
      exact h q (by simp [hq])

theorem addModules_mapGet (N : ℕ) (aw : JsNum) (c : NodeRec) (k : String)
    (mods : List RawModule) :
    ∀ (i : ℕ) (s : NMState),
      mapGet (addModules N aw c i mods s).nodes k
        = match lastOcc k mods with
          | some (p, m) => some (moduleNodeRec (s.nextId + 2 * p) (i + p) N m)
          | none => mapGet s.nodes k := by
  induction mods with
  | nil => intro i s; simp [addModules, lastOcc]
  | cons m rest ih =>
      intro i s
      simp only [addModules, createNode, createConnection]
      rw [ih]
      rcases hl : lastOcc k rest with _ | ⟨p, mm⟩
      · simp only [lastOcc, hl]
        by_cases hk : m.name = k
        · simp [hk, mapGet_mapSet_self, moduleNodeRec, moduleAngle]
        · simp [mapGet_mapSet_ne _ _ _ _ (fun hh => hk hh.symm), hk]
      · simp only [lastOcc, hl]
        have e1 : s.nextId + 1 + 1 + 2 * p = s.nextId + 2 * (p + 1) := by omega
        have e2 : i + 1 + p = i + (p + 1) := by omega
        simp [e1, e2]

theorem addModules_nodes_fresh (N : ℕ) (aw : JsNum) (c : NodeRec) (mods : List RawModule) :
    ∀ (i : ℕ) (s : NMState),
      (mods.map RawModule.name).Nodup →
      (∀ p ∈ s.nodes, ∀ m ∈ mods, p.1 ≠ m.name) →
      (addModules N aw c i mods s).nodes = s.nodes ++ modRecs N s.nextId i mods := by
  induction mods with
  | nil => intro i s _ _; simp [addModules, modRecs]
  | cons m rest ih =>
      intro i s hnd hfresh
      have hnd2 : (∀ x ∈ rest, ¬x.name = m.name) ∧ (List.map RawModule.name rest).Nodup := by
        simpa using hnd
      simp only [addModules, createNode, createConnection, modRecs]
      rw [mapSet_fresh s.nodes m.name _
        (fun p hp => hfresh p hp m (by simp))]
      rw [ih]
      · have e1 : s.nextId + 1 + 1 = s.nextId + 2 := rfl
        simp [e1, moduleNodeRec]
      · exact hnd2.2
      · intro p hp m2 hm2
        rcases List.mem_append.mp hp with hold | hnew
        · exact hfresh p hold m2 (by simp [hm2])
        · have hpe : p.1 = m.name := by
            rcases List.mem_singleton.mp hnew with rfl
            rfl
          rw [hpe]
          exact fun hcontra => hnd2.1 m2 hm2 hcontra.symm

theorem clearNodes_of_fullyTracked (s : NMState) (h : fullyTracked s) :
    (clearNodes s).scene = [] := by
  simp only [clearNodes]
  rw [List.filter_eq_nil_iff]
  intro o ho
  simp [h o ho]

theorem updateNeuralMap_none (s : NMState) (d : RawMessage) (hm : d.modules = none) :
    updateNeuralMap s d
      = { nextId := s.nextId + 1,
          scene := (clearNodes s).scene ++ [SceneObj.mesh (centralMeshData s.nextId d)],
          nodes := [("consciousness", centralNodeRec s.nextId d)],
          connections := [] } := by
  simp only [updateNeuralMap, createNode, hm]
  simp [clearNodes, mapSet, centralMeshData, centralNodeRec]

theorem updateNeuralMap_scene (s : NMState) (d : RawMessage) (mods : List RawModule)
    (hm : d.modules = some mods) :
    (updateNeuralMap s d).scene
      = (clearNodes s).scene ++ SceneObj.mesh (centralMeshData s.nextId d)
          :: builtObjs (centralNodeRec s.nextId d) (jsOfOpt d.awareness_score)
               mods.length (s.nextId + 1) 0 mods := by
  simp only [updateNeuralMap, createNode, hm]
  rw [addModules_scene]
  simp [clearNodes, centralMeshData, centralNodeRec]

theorem updateNeuralMap_connections (s : NMState) (d : RawMessage) (mods : List RawModule)
    (hm : d.modules = some mods) :
    (updateNeuralMap s d).connections
      = lineRecs (centralNodeRec s.nextId d) (jsOfOpt d.awareness_score)
          mods.length (s.nextId + 1) 0 mods := by
  simp only [updateNeuralMap, createNode, hm]
  rw [addModules_connections]
  simp [clearNodes, centralNodeRec]

theorem updateNeuralMap_mapGet (s : NMState) (d : RawMessage) (mods : List RawModule)
    (k : String) (hm : d.modules = some mods) :
    mapGet (updateNeuralMap s d).nodes k
      = match lastOcc k mods with
        | some (p, m) => some (moduleNodeRec (s.nextId + 1 + 2 * p) p mods.length m)
        | none =>
            if "consciousness" = k then some (centralNodeRec s.nextId d) else none := by
  simp only [updateNeuralMap, createNode, hm]
  rw [addModules_mapGet]
  rcases hl : lastOcc k mods with _ | ⟨p, m⟩
  · simp [clearNodes, mapSet, mapGet, centralNodeRec]
  · simp [clearNodes, centralNodeRec]

theorem updateNeuralMap_nodes_good (s : NMState) (d : RawMessage) (mods : List RawModule)
    (hm : d.modules = some mods)
    (hnd : (mods.map RawModule.name).Nodup)
    (hnc : "consciousness" ∉ mods.map RawModule.name) :
    (updateNeuralMap s d).nodes
      = ("consciousness", centralNodeRec s.nextId d)
          :: modRecs mods.length (s.nextId + 1) 0 mods := by
  simp only [updateNeuralMap, createNode, hm]
  rw [addModules_nodes_fresh _ _ _ _ _ _ hnd]
  · simp [clearNodes, mapSet, centralNodeRec]
  · intro p hp m2 hm2
    have hp2 : p = ("consciousness",
        { meshId := (clearNodes s).nextId, posX := 0, posY := 0, posZ := 0,
          activity := jsOfOpt d.awareness_score, label := d.consciousness_level,
          type := "consciousness" }) := by
      simpa [clearNodes, mapSet] using hp
    rcases hp2 with rfl
    intro hcontra
    exact hnc (by simp only [List.mem_map]; exact ⟨m2, hm2, by simpa using hcontra.symm⟩)

theorem builtObjs_nodeMeshCount (c : NodeRec) (aw : JsNum) (N : ℕ) (mods : List RawModule) :
    ∀ (nid i : ℕ), nodeMeshCount (builtObjs c aw N nid i mods) = mods.length := by
  induction mods with
  | nil => intro nid i; simp [builtObjs, nodeMeshCount]
  | cons m rest ih =>
      intro nid i
      simp [builtObjs, nodeMeshCount, List.countP_cons] at ih ⊢
      exact ih (nid + 2) (i + 1)

theorem builtObjs_lineCount (c : NodeRec) (aw : JsNum) (N : ℕ) (mods : List RawModule) :
    ∀ (nid i : ℕ), lineCount (builtObjs c aw N nid i mods) = mods.length := by
  induction mods with
  | nil => intro nid i; simp [builtObjs, lineCount]
  | cons m rest ih =>
      intro nid i
      simp [builtObjs, lineCount, List.countP_cons] at ih ⊢
      exact ih (nid + 2) (i + 1)

theorem modRecs_length (N : ℕ) (mods : List RawModule) :
    ∀ (nid i : ℕ), (modRecs N nid i mods).length = mods.length := by
  induction mods with
  | nil => intro nid i; simp [modRecs]
  | cons m rest ih => intro nid i; simp [modRecs, ih]

theorem lineRecs_length (c : NodeRec) (aw : JsNum) (N : ℕ) (mods : List RawModule) :
    ∀ (nid i : ℕ), (lineRecs c aw N nid i mods).length = mods.length := by
  induction mods with
  | nil => intro nid i; simp [lineRecs]
  | cons m rest ih => intro nid i; simp [lineRecs, ih]

theorem modRecs_getElem (N : ℕ) (mods : List RawModule) :
    ∀ (nid i j : ℕ),
      (modRecs N nid i mods)[j]?
        = (mods[j]?).map (fun m => (m.name, moduleNodeRec (nid + 2 * j) (i + j) N m)) := by
  induction mods with
  | nil => intro nid i j; simp [modRecs]
  | cons m rest ih =>
      intro nid i j
      cases j with
      | zero => simp [modRecs]
      | succ j2 =>
          simp only [modRecs, List.getElem?_cons_succ]
          rw [ih]
          rcases hj : rest[j2]? with _ | mm
          · rfl
          · have e1 : nid + 2 + 2 * j2 = nid + 2 * (j2 + 1) := by omega
            have e2 : i + 1 + j2 = i + (j2 + 1) := by omega
            simp only [e1, e2]

theorem lineRecs_getElem (c : NodeRec) (aw : JsNum) (N : ℕ) (mods : List RawModule) :
    ∀ (nid i j : ℕ),
      (lineRecs c aw N nid i mods)[j]?
        = (mods[j]?).map (fun m => moduleLineData (nid + 2 * j + 1) c (i + j) N aw) := by
  induction mods with
  | nil => intro nid i j; simp [lineRecs]
  | cons m rest ih =>
      intro nid i j
      cases j with
      | zero => simp [lineRecs]
      | succ j2 =>
          simp only [lineRecs, List.getElem?_cons_succ]
          rw [ih]
          rcases hj : rest[j2]? with _ | mm
          · rfl
          · have e1 : nid + 2 + 2 * j2 + 1 = nid + 2 * (j2 + 1) + 1 := by omega
            have e2 : i + 1 + j2 = i + (j2 + 1) := by omega
            simp only [e1, e2]

theorem modRecs_type_count (N : ℕ) (mods : List RawModule) :
    ∀ (nid i : ℕ),
      (modRecs N nid i mods).countP (fun p => p.2.type == "consciousness") = 0 := by
  induction mods with
  | nil => intro nid i; simp [modRecs]
  | cons m rest ih =>
      intro nid i
      simp [modRecs, List.countP_cons, moduleNodeRec, ih]

theorem goodNames_spec (d : RawMessage) (mods : List RawModule)
    (hm : d.modules = some mods) (hg : goodNames d = true) :
    (mods.map RawModule.name).Nodup ∧ "consciousness" ∉ mods.map RawModule.name := by
  rw [goodNames, hm] at hg
  exact of_decide_eq_true hg

theorem builtObjs_objId_mem (c : NodeRec) (aw : JsNum) (N : ℕ) (mods : List RawModule) :
    ∀ (nid i : ℕ), ∀ o ∈ builtObjs c aw N nid i mods,
      o.objId ∈ (modRecs N nid i mods).map (fun p => p.2.meshId)
          ++ (lineRecs c aw N nid i mods).map LineData.id := by
  induction mods with
  | nil => intro nid i o ho; simp [builtObjs] at ho
  | cons m rest ih =>
      intro nid i o ho
      simp only [builtObjs, List.mem_cons] at ho
      simp only [modRecs, lineRecs, List.map_cons, List.cons_append, List.mem_cons]
      rcases ho with rfl | ho2
      · left
        simp [SceneObj.objId, moduleNodeRec, moduleMeshData]
      · rcases ho2 with rfl | ho3
        · right
          apply List.mem_append.mpr
          right
          simp [SceneObj.objId, moduleLineData]
        · right
          have := ih (nid + 2) (i + 1) o ho3
          rcases List.mem_append.mp this with hA | hB
          · exact List.mem_append.mpr (Or.inl hA)
          · exact List.mem_append.mpr (Or.inr (by simp [hB]))

theorem updateNeuralMap_counts (s : NMState) (d : RawMessage) (h : fullyTracked s) :
    nodeMeshCount (updateNeuralMap s d).scene = moduleCount d + 1
      ∧ lineCount (updateNeuralMap s d).scene = moduleCount d := by
  rcases hm : d.modules with _ | mods
  · rw [updateNeuralMap_none s d hm]
    simp [clearNodes_of_fullyTracked s h, nodeMeshCount, lineCount, moduleCount, hm]
  · rw [moduleCount, hm]
    constructor
    · rw [nodeMeshCount, updateNeuralMap_scene s d mods hm,
        clearNodes_of_fullyTracked s h]
      simp only [List.nil_append, List.countP_cons]
      have hb := builtObjs_nodeMeshCount (centralNodeRec s.nextId d)
        (jsOfOpt d.awareness_score) mods.length mods (s.nextId + 1) 0
      rw [nodeMeshCount] at hb
      rw [hb]
      simp
    · rw [lineCount, updateNeuralMap_scene s d mods hm,
        clearNodes_of_fullyTracked s h]
      simp only [List.nil_append, List.countP_cons]
      have hb := builtObjs_lineCount (centralNodeRec s.nextId d)
        (jsOfOpt d.awareness_score) mods.length mods (s.nextId + 1) 0
      rw [lineCount] at hb
      rw [hb]
      simp

theorem fullyTracked_update (s : NMState) (d : RawMessage)
    (h : fullyTracked s) (hg : goodNames d = true) :
    fullyTracked (updateNeuralMap s d) := by
  rcases hm : d.modules with _ | mods
  · intro o ho
    rw [updateNeuralMap_none s d hm] at ho ⊢
    rw [clearNodes_of_fullyTracked s h] at ho
    simp only [List.nil_append, List.mem_singleton] at ho
    subst ho
    simp [trackedIds, SceneObj.objId, centralMeshData, centralNodeRec]
  · have hgs := goodNames_spec d mods hm hg
    intro o ho
    rw [updateNeuralMap_scene s d mods hm, clearNodes_of_fullyTracked s h] at ho
    rw [trackedIds, updateNeuralMap_nodes_good s d mods hm hgs.1 hgs.2,
      updateNeuralMap_connections s d mods hm]
    simp only [List.nil_append, List.mem_cons] at ho
    simp only [List.map_cons, List.cons_append, List.mem_cons]
    rcases ho with rfl | ho2
    · left
      simp [SceneObj.objId, centralMeshData, centralNodeRec]
    · right
      exact builtObjs_objId_mem _ _ _ mods (s.nextId + 1) 0 o ho2

theorem fullyTracked_foldl (snaps : List RawMessage) :
    ∀ (s : NMState), fullyTracked s → (∀ d ∈ snaps, goodNames d = true) →
      fullyTracked (snaps.foldl updateNeuralMap s) := by
  induction snaps with
  | nil => intro s h _; simpa using h
  | cons d rest ih =>
      intro s h hall
      simp only [List.foldl_cons]
      exact ih (updateNeuralMap s d)
        (fullyTracked_update s d h (hall d (by simp)))
        (fun d2 hd2 => hall d2 (by simp [hd2]))

/-! Claim theorems. -/

/-- Claim C1, counterexample: a raw message missing `awarenessScore` is
NOT rejected. Processing it from the freshly initialized state changes
the scene, so the prior visualization is not left untouched: the claim
fails at this concrete input. -/
theorem C1_counterexample :
    (updateNeuralMap initNeuralMap
        { consciousness_level := some "x", awareness_score := none,
          modules := none }).scene
      ≠ initNeuralMap.scene := by
  intro hcontra
  have hlen : (updateNeuralMap initNeuralMap
      { consciousness_level := some "x", awareness_score := none,
        modules := none }).scene.length = initNeuralMap.scene.length :=
    congrArg List.length hcontra
  have h1 : (updateNeuralMap initNeuralMap
      { consciousness_level := some "x", awareness_score := none,
        modules := none }).scene.length = 1 := rfl
  have h0 : initNeuralMap.scene.length = 0 := rfl
  rw [h1, h0] at hlen
  exact one_ne_zero hlen

/-- Claim C1, amended: `updateNeuralMap` performs no validation. A
message missing `awarenessScore` is processed like any other: the
tracked resources of the prior scene are torn down and a new scene is
built from the message, whose central node mesh has `NaN` size and
`undefined` emissive intensity, and whose node map holds a single
consciousness entry with `undefined` activity. The prior visualization
is not retained. -/
theorem C1_amended_missingFieldProcessed (s : NMState) (d : RawMessage)
    (ha : d.awareness_score = none) (hmo : d.modules = none) :
    (updateNeuralMap s d).scene
      = (clearNodes s).scene
          ++ [SceneObj.mesh
              { id := s.nextId, posX := 0, posY := 0, posZ := 0,
                size := JsNum.nan, color := 0xff6b6b, emissive := 0xff6b6b,
                emissiveIntensity := JsNum.undef }]
    ∧ (updateNeuralMap s d).nodes
      = [("consciousness",
          { meshId := s.nextId, posX := 0, posY := 0, posZ := 0,
            activity := JsNum.undef, label := d.consciousness_level,
            type := "consciousness" })] := by
  rw [updateNeuralMap_none s d hmo]
  constructor
  · simp [centralMeshData, ha, jsOfOpt, getNodeColor, JsNum.mul, JsNum.add]
  · simp [centralNodeRec, ha, jsOfOpt]

/-- Witness for C1: the amended theorem applied to the initial state
and a concrete message missing `awarenessScore`. -/
theorem C1_amended_witness :
    (updateNeuralMap initNeuralMap
        { consciousness_level := some "x", awareness_score := none,
          modules := none }).scene
      = (clearNodes initNeuralMap).scene
          ++ [SceneObj.mesh
              { id := 0, posX := 0, posY := 0, posZ := 0,
                size := JsNum.nan, color := 0xff6b6b, emissive := 0xff6b6b,
                emissiveIntensity := JsNum.undef }]
    ∧ (updateNeuralMap initNeuralMap
        { consciousness_level := some "x", awareness_score := none,
          modules := none }).nodes
      = [("consciousness",
          { meshId := 0, posX := 0, posY := 0, posZ := 0,
            activity := JsNum.undef, label := some "x",
            type := "consciousness" })] :=
  C1_amended_missingFieldProcessed initNeuralMap
    { consciousness_level := some "x", awareness_score := none, modules := none }
    rfl rfl

/-- Claim C2, counterexample: for the out-of-range activity `3/2`, the
value used for the visual properties is `3/2` itself, not
`max(0, min(1, 3/2)) = 1`: the node record keeps activity `3/2` and the
created mesh has emissive intensity `3/2`, which differs from the
clamped value. -/
theorem C2_counterexample :
    (createNode initNeuralMap 0 0 0 (JsNum.num (3/2)) (some "m") "module").1.activity
        = JsNum.num (3/2)
    ∧ ((createNode initNeuralMap 0 0 0 (JsNum.num (3/2)) (some "m") "module").2.scene.map
          (fun o => match o with
            | SceneObj.mesh mm => mm.emissiveIntensity
            | SceneObj.line ll => ll.opacity))
        = [JsNum.num (3/2)]
    ∧ JsNum.num (3/2) ≠ JsNum.num (specClamp01 (3/2)) :=
  ⟨rfl, rfl, by norm_num [specClamp01]⟩

/-- Claim C2, amended: activity and awareness values are used as-is,
with no clamping anywhere: the mesh built by `createNode` has size
`v * 5 + 1`, emissive intensity exactly `v`, and the line built by
`createConnection` has opacity exactly the given strength - for every
input value, in range or not. Nothing is rejected (the functions are
total). -/
theorem C2_amended_valuesUnclamped (s : NMState) (px py pz : ℝ) (a : JsNum)
    (lb : Option String) (t : String) (n1 n2 : NodeRec) (st : JsNum) :
    (createNode s px py pz a lb t).2.scene
      = s.scene ++ [SceneObj.mesh
          { id := s.nextId, posX := px, posY := py, posZ := pz,
            size := (a.mul (JsNum.num 5)).add (JsNum.num 1),
            color := getNodeColor t a, emissive := getNodeColor t a,
            emissiveIntensity := a }]
    ∧ (createNode s px py pz a lb t).1.activity = a
    ∧ (createConnection s n1 n2 st).connections
      = s.connections ++ [{
          id := s.nextId,
          p1X := n1.posX, p1Y := n1.posY, p1Z := n1.posZ,
          p2X := n2.posX, p2Y := n2.posY, p2Z := n2.posZ,
          color := 0x888888, opacity := st, transparent := true }] :=
  ⟨rfl, rfl, rfl⟩

/-- Claim C3, counterexample: when the WebSocket closes, nothing
happens - no reconnect attempt is scheduled (the list of scheduled
reconnect delays stays empty) and the state is unchanged, contradicting
the claimed exponential-backoff reconnection at this concrete input. -/
theorem C3_counterexample :
    wsStep WsEvent.close { neural := initNeuralMap, scheduledReconnects := [] }
        = { neural := initNeuralMap, scheduledReconnects := [] }
    ∧ (wsStep WsEvent.close
        { neural := initNeuralMap, scheduledReconnects := [] }).scheduledReconnects.length
        = 0 :=
  ⟨rfl, rfl⟩

/-- Claim C3, amended: the connection code installs only a message
handler; close and error events run no code, so no reconnect attempt is
ever scheduled (no backoff, no jitter, no reset) and the connection is
never reopened. -/
theorem C3_amended_noReconnection (e : WsEvent) (c : ConnState) :
    (wsStep e c).scheduledReconnects = c.scheduledReconnects
    ∧ wsStep WsEvent.close c = c
    ∧ wsStep WsEvent.error c = c := by
  refine ⟨?_, rfl, rfl⟩
  cases e <;> rfl

/-- Claim C4, counterexample: two consecutive updates, the first
carrying a module literally named `"consciousness"`. The map entry of
that module overwrites the entry of the central node, so the central
mesh of the first update is orphaned and survives `clearNodes` of the
second update:
after the second call the scene holds 2 node meshes, not the
`moduleCount + 1 = 1` the claim demands. -/
theorem C4_counterexample :
    nodeMeshCount (([{
            consciousness_level := some "a", awareness_score := some (1/2),
            modules := some [{ name := "consciousness", activity_level := some (1/2) }] },
          {
            consciousness_level := some "a", awareness_score := some (1/2),
            modules := some [] }] : List RawMessage).foldl
          updateNeuralMap initNeuralMap).scene
      ≠ moduleCount {
          consciousness_level := some "a", awareness_score := some (1/2),
          modules := some ([] : List RawModule) } + 1 := by
  decide

/-- Claim C4, amended: provided no snapshot carries a module named
`"consciousness"` and module names are unique within each snapshot
(the uniqueness the validity notion of the spec already requires), then
after any sequence of `updateNeuralMap` calls from the initial state,
the live node and edge resources in the scene are exactly those implied
by the last snapshot: its module count plus one node, and one edge per
module - never the accumulated sum over earlier layouts. -/
theorem C4_amended_exactCounts (snaps : List RawMessage) (dLast : RawMessage)
    (hall : ∀ d ∈ snaps, goodNames d = true) (hlast : goodNames dLast = true) :
    nodeMeshCount ((snaps ++ [dLast]).foldl updateNeuralMap initNeuralMap).scene
        = moduleCount dLast + 1
    ∧ lineCount ((snaps ++ [dLast]).foldl updateNeuralMap initNeuralMap).scene
        = moduleCount dLast := by
  have hft : fullyTracked (snaps.foldl updateNeuralMap initNeuralMap) :=
    fullyTracked_foldl snaps initNeuralMap (by intro o ho; simp [initNeuralMap] at ho) hall
  rw [List.foldl_append]
  simp only [List.foldl_cons, List.foldl_nil]
  exact updateNeuralMap_counts _ dLast hft

/-- Witness for C4: the amended count theorem at a concrete two-snapshot
sequence. -/
theorem C4_amended_witness :
    nodeMeshCount ((([{
              consciousness_level := some "a", awareness_score := some (1/2),
              modules := some [{ name := "m1", activity_level := some (1/2) }] }]
            ++ [{
              consciousness_level := some "b", awareness_score := some (3/4),
              modules := some [{ name := "x", activity_level := some 1 },
                { name := "y", activity_level := some 0 }] }]) : List RawMessage).foldl
          updateNeuralMap initNeuralMap).scene
        = moduleCount {
            consciousness_level := some "b", awareness_score := some (3/4),
            modules := some [{ name := "x", activity_level := some 1 },
              { name := "y", activity_level := some 0 }] } + 1
    ∧ lineCount ((([{
              consciousness_level := some "a", awareness_score := some (1/2),
              modules := some [{ name := "m1", activity_level := some (1/2) }] }]
            ++ [{
              consciousness_level := some "b", awareness_score := some (3/4),
              modules := some [{ name := "x", activity_level := some 1 },
                { name := "y", activity_level := some 0 }] }]) : List RawMessage).foldl
          updateNeuralMap initNeuralMap).scene
        = moduleCount {
            consciousness_level := some "b", awareness_score := some (3/4),
            modules := some [{ name := "x", activity_level := some 1 },
              { name := "y", activity_level := some 0 }] } :=
  C4_amended_exactCounts
    [{
       consciousness_level := some "a", awareness_score := some (1/2),
       modules := some [{ name := "m1", activity_level := some (1/2) }] }]
    {
      consciousness_level := some "b", awareness_score := some (3/4),
      modules := some [{ name := "x", activity_level := some 1 },
        { name := "y", activity_level := some 0 }] }
    (by decide) (by decide)

/-- Claim C5, confirmed: for a valid snapshot whose module names are
unique and do not collide with the `"consciousness"` key, the layout
places exactly one consciousness node, at the origin, with activity
`awarenessScore` and label `consciousnessLevel`; and the `i`-th module
(0-indexed, in original snapshot order) is registered at map position
`i + 1` with position `(20·cos((i/N)·2π), 20·sin((i/N)·2π), 0)` -
a formula independent of the activity value of the module. -/
theorem C5_radialLayout (s : NMState) (d : RawMessage) (lvl : String) (aw : ℚ)
    (mods : List RawModule) (i : ℕ)
    (hl : d.consciousness_level = some lvl) (ha : d.awareness_score = some aw)
    (hm : d.modules = some mods) (hg : goodNames d = true)
    (hi : i < mods.length) :
    mapGet (updateNeuralMap s d).nodes "consciousness"
        = some { meshId := s.nextId, posX := 0, posY := 0, posZ := 0,
                 activity := JsNum.num aw, label := some lvl,
                 type := "consciousness" }
    ∧ (updateNeuralMap s d).nodes.countP
        (fun p => p.2.type == "consciousness") = 1
    ∧ (updateNeuralMap s d).nodes[i + 1]?
        = some ((mods.get ⟨i, hi⟩).name,
            { meshId := s.nextId + 1 + 2 * i,
              posX := 20 * Real.cos (((i : ℝ) / (mods.length : ℝ)) * (2 * Real.pi)),
              posY := 20 * Real.sin (((i : ℝ) / (mods.length : ℝ)) * (2 * Real.pi)),
              posZ := 0,
              activity := jsOfOpt (mods.get ⟨i, hi⟩).activity_level,
              label := some (mods.get ⟨i, hi⟩).name, type := "module" }) := by
  have hgs := goodNames_spec d mods hm hg
  have hn := updateNeuralMap_nodes_good s d mods hm hgs.1 hgs.2
  have hang : moduleAngle i mods.length
      = ((i : ℝ) / (mods.length : ℝ)) * (2 * Real.pi) := by
    rw [moduleAngle]; ring
  refine ⟨?_, ?_, ?_⟩
  · rw [hn]
    simp [mapGet, centralNodeRec, hl, ha, jsOfOpt]
  · rw [hn]
    simp [List.countP_cons, centralNodeRec, modRecs_type_count]
  · rw [hn]
    rw [List.getElem?_cons_succ, modRecs_getElem,
      List.getElem?_eq_getElem hi]
    simp only [Option.map_some, List.get_eq_getElem]
    have e2 : (0 : ℕ) + i = i := by omega
    simp only [moduleNodeRec, e2, hang, mul_comm]
    rfl

/-- Witness for C5: the radial-layout theorem at the very scenario
snapshot given in the spec (`aware`, awareness 0.8, modules `memory` and
`reasoning`), reading off module index 1. -/
theorem C5_witness :
    mapGet (updateNeuralMap initNeuralMap {
        consciousness_level := some "aware", awareness_score := some (4/5),
        modules := some [{ name := "memory", activity_level := some (1/2) },
          { name := "reasoning", activity_level := some (9/10) }] }).nodes
        "consciousness"
      = some { meshId := 0, posX := 0, posY := 0, posZ := 0,
               activity := JsNum.num (4/5), label := some "aware",
               type := "consciousness" }
    ∧ (updateNeuralMap initNeuralMap {
        consciousness_level := some "aware", awareness_score := some (4/5),
        modules := some [{ name := "memory", activity_level := some (1/2) },
          { name := "reasoning", activity_level := some (9/10) }] }).nodes.countP
        (fun p => p.2.type == "consciousness") = 1
    ∧ (updateNeuralMap initNeuralMap {
        consciousness_level := some "aware", awareness_score := some (4/5),
        modules := some [{ name := "memory", activity_level := some (1/2) },
          { name := "reasoning", activity_level := some (9/10) }] }).nodes[1 + 1]?
      = some ("reasoning",
          { meshId := 0 + 1 + 2 * 1,
            posX := 20 * Real.cos ((((1 : ℕ) : ℝ) / ((2 : ℕ) : ℝ)) * (2 * Real.pi)),
            posY := 20 * Real.sin ((((1 : ℕ) : ℝ) / ((2 : ℕ) : ℝ)) * (2 * Real.pi)),
            posZ := 0, activity := JsNum.num (9/10),
            label := some "reasoning", type := "module" }) :=
  C5_radialLayout initNeuralMap
    { consciousness_level := some "aware", awareness_score := some (4/5),
      modules := some [{ name := "memory", activity_level := some (1/2) },
        { name := "reasoning", activity_level := some (9/10) }] }
    "aware" (4/5)
    [{ name := "memory", activity_level := some (1/2) },
      { name := "reasoning", activity_level := some (9/10) }]
    1 rfl rfl rfl (by decide) (by decide)

/-- Claim C6, confirmed: a valid snapshot with `N` modules produces
exactly one connection per module; the `i`-th connection joins the
central node position `(0,0,0)` to the `i`-th module position, has
strength (opacity) equal to the snapshot `awarenessScore`, and is
rendered translucent (`transparent = true`). -/
theorem C6_edgesPerModule (s : NMState) (d : RawMessage) (aw : ℚ)
    (mods : List RawModule) (i : ℕ)
    (ha : d.awareness_score = some aw) (hm : d.modules = some mods)
    (hi : i < mods.length) :
    (updateNeuralMap s d).connections.length = mods.length
    ∧ (updateNeuralMap s d).connections[i]?
      = some {
          id := s.nextId + 1 + 2 * i + 1,
          p1X := 0, p1Y := 0, p1Z := 0,
          p2X := 20 * Real.cos (((i : ℝ) / (mods.length : ℝ)) * (2 * Real.pi)),
          p2Y := 20 * Real.sin (((i : ℝ) / (mods.length : ℝ)) * (2 * Real.pi)),
          p2Z := 0, color := 0x888888, opacity := JsNum.num aw,
          transparent := true } := by
  have hang : moduleAngle i mods.length
      = ((i : ℝ) / (mods.length : ℝ)) * (2 * Real.pi) := by
    rw [moduleAngle]; ring
  constructor
  · rw [updateNeuralMap_connections s d mods hm]
    exact lineRecs_length _ _ _ mods _ _
  · rw [updateNeuralMap_connections s d mods hm, lineRecs_getElem,
      List.getElem?_eq_getElem hi]
    have e2 : (0 : ℕ) + i = i := by omega
    simp only [Option.map_some, moduleLineData, centralNodeRec, e2, hang,
      ha, jsOfOpt, mul_comm]
    rfl

/-- Witness for C6: the edge theorem at the scenario snapshot of the spec,
reading off edge index 0 (strength 0.8). -/
theorem C6_witness :
    (updateNeuralMap initNeuralMap {
        consciousness_level := some "aware", awareness_score := some (4/5),
        modules := some [{ name := "memory", activity_level := some (1/2) },
          { name := "reasoning", activity_level := some (9/10) }] }).connections.length
      = 2
    ∧ (updateNeuralMap initNeuralMap {
        consciousness_level := some "aware", awareness_score := some (4/5),
        modules := some [{ name := "memory", activity_level := some (1/2) },
          { name := "reasoning", activity_level := some (9/10) }] }).connections[0]?
      = some {
          id := 0 + 1 + 2 * 0 + 1,
          p1X := 0, p1Y := 0, p1Z := 0,
          p2X := 20 * Real.cos ((((0 : ℕ) : ℝ) / ((2 : ℕ) : ℝ)) * (2 * Real.pi)),
          p2Y := 20 * Real.sin ((((0 : ℕ) : ℝ) / ((2 : ℕ) : ℝ)) * (2 * Real.pi)),
          p2Z := 0, color := 0x888888, opacity := JsNum.num (4/5),
          transparent := true } :=
  C6_edgesPerModule initNeuralMap
    { consciousness_level := some "aware", awareness_score := some (4/5),
      modules := some [{ name := "memory", activity_level := some (1/2) },
        { name := "reasoning", activity_level := some (9/10) }] }
    (4/5)
    [{ name := "memory", activity_level := some (1/2) },
      { name := "reasoning", activity_level := some (9/10) }]
    0 rfl rfl (by decide)

/-- Claim C7, confirmed: from any state whose scene objects are all
tracked (as every state reachable by well-named updates is), applying a
valid snapshot with `N` modules leaves exactly `N + 1` node meshes in
the scene. -/
theorem C7_nodeCountAfterUpdate (s : NMState) (d : RawMessage) (lvl : String)
    (aw : ℚ) (mods : List RawModule) (hft : fullyTracked s)
    (hl : d.consciousness_level = some lvl) (ha : d.awareness_score = some aw)
    (hm : d.modules = some mods) :
    nodeMeshCount (updateNeuralMap s d).scene = mods.length + 1 := by
  have hc := updateNeuralMap_counts s d hft
  simp only [moduleCount, hm] at hc
  exact hc.1

/-- Witness for C7: the node-count theorem at the scenario snapshot of
the spec applied to the initial state: 3 nodes for 2 modules. -/
theorem C7_witness :
    nodeMeshCount (updateNeuralMap initNeuralMap {
        consciousness_level := some "aware", awareness_score := some (4/5),
        modules := some [{ name := "memory", activity_level := some (1/2) },
          { name := "reasoning", activity_level := some (9/10) }] }).scene
      = 2 + 1 :=
  C7_nodeCountAfterUpdate initNeuralMap
    { consciousness_level := some "aware", awareness_score := some (4/5),
      modules := some [{ name := "memory", activity_level := some (1/2) },
        { name := "reasoning", activity_level := some (9/10) }] }
    "aware" (4/5)
    [{ name := "memory", activity_level := some (1/2) },
      { name := "reasoning", activity_level := some (9/10) }]
    (by decide) rfl rfl rfl

/-- Claim C8, confirmed: processing a snapshot never crashes (the
embedded update is a total function), and duplicate module names are
last-write-wins: when the last module bearing `name` sits at position
`p` in snapshot order, the node registered under `name` after the
update is exactly the one created for that module (mesh id
`nextId + 1 + 2p`, the angle of the `p`-th module, its activity). -/
theorem C8_duplicateNamesLastWriteWins (s : NMState) (d : RawMessage)
    (mods : List RawModule) (name : String) (p : ℕ) (m : RawModule)
    (hm : d.modules = some mods) (hlast : lastOcc name mods = some (p, m)) :
    mapGet (updateNeuralMap s d).nodes name
      = some {
          meshId := s.nextId + 1 + 2 * p,
          posX := Real.cos (moduleAngle p mods.length) * 20,
          posY := Real.sin (moduleAngle p mods.length) * 20, posZ := 0,
          activity := jsOfOpt m.activity_level, label := some m.name,
          type := "module" } := by
  rw [updateNeuralMap_mapGet s d mods name hm]
  simp only [hlast, moduleNodeRec]

/-- Witness for C8: two modules both named `dup`; the registered node is
the second one (index 1, activity 1/4). -/
theorem C8_witness :
    mapGet (updateNeuralMap initNeuralMap {
        consciousness_level := some "c", awareness_score := some (1/2),
        modules := some [{ name := "dup", activity_level := some 1 },
          { name := "dup", activity_level := some (1/4) }] }).nodes "dup"
      = some {
          meshId := 0 + 1 + 2 * 1,
          posX := Real.cos (moduleAngle 1 2) * 20,
          posY := Real.sin (moduleAngle 1 2) * 20, posZ := 0,
          activity := JsNum.num (1/4), label := some "dup",
          type := "module" } :=
  C8_duplicateNamesLastWriteWins initNeuralMap
    { consciousness_level := some "c", awareness_score := some (1/2),
      modules := some [{ name := "dup", activity_level := some 1 },
        { name := "dup", activity_level := some (1/4) }] }
    [{ name := "dup", activity_level := some 1 },
      { name := "dup", activity_level := some (1/4) }]
    "dup" 1 { name := "dup", activity_level := some (1/4) }
    rfl rfl

/-- Claim C9, confirmed: `getNodeColor` is a total lookup: each of the
four table kinds maps to its fixed base color, any other kind maps to
the fallback `0xffffff`, and the function never fails; the mesh built
by `createNode` carries `emissiveIntensity` exactly equal to the
activity value it was given. -/
theorem C9_colorTableAndEmissive (t : String) (a : JsNum) (s : NMState)
    (px py pz : ℝ) (lb : Option String)
    (hb : t ∉ (["consciousness", "module", "agent", "memory"] : List String)) :
    getNodeColor "consciousness" a = 0xff6b6b
    ∧ getNodeColor "module" a = 0x4ecdc4
    ∧ getNodeColor "agent" a = 0x45b7d1
    ∧ getNodeColor "memory" a = 0x96ceb4
    ∧ getNodeColor t a = 0xffffff
    ∧ (createNode s px py pz a lb t).2.scene
      = s.scene ++ [SceneObj.mesh {
          id := s.nextId, posX := px, posY := py, posZ := pz,
          size := (a.mul (JsNum.num 5)).add (JsNum.num 1),
          color := getNodeColor t a, emissive := getNodeColor t a,
          emissiveIntensity := a }] := by
  simp only [List.mem_cons, List.not_mem_nil, or_false, not_or] at hb
  refine ⟨by simp [getNodeColor], by simp [getNodeColor], by simp [getNodeColor],
    by simp [getNodeColor], ?_, rfl⟩
  simp [getNodeColor, hb.1, hb.2.1, hb.2.2.1, hb.2.2.2]

/-- Witness for C9: the color theorem at the unknown kind `other`. -/
theorem C9_witness :
    getNodeColor "consciousness" (JsNum.num 1) = 0xff6b6b
    ∧ getNodeColor "module" (JsNum.num 1) = 0x4ecdc4
    ∧ getNodeColor "agent" (JsNum.num 1) = 0x45b7d1
    ∧ getNodeColor "memory" (JsNum.num 1) = 0x96ceb4
    ∧ getNodeColor "other" (JsNum.num 1) = 0xffffff
    ∧ (createNode initNeuralMap 0 0 0 (JsNum.num 1) (some "n") "other").2.scene
      = initNeuralMap.scene ++ [SceneObj.mesh {
          id := 0, posX := 0, posY := 0, posZ := 0,
          size := ((JsNum.num 1).mul (JsNum.num 5)).add (JsNum.num 1),
          color := getNodeColor "other" (JsNum.num 1),
          emissive := getNodeColor "other" (JsNum.num 1),
          emissiveIntensity := JsNum.num 1 }] :=
  C9_colorTableAndEmissive "other" (JsNum.num 1) initNeuralMap 0 0 0 (some "n")
    (by decide)

/-- Claim C10, confirmed: from a state whose scene objects are all
tracked, an update whose module names are pairwise distinct and none
equal to `"consciousness"` yields a state in which every mesh and line
added to the scene is recorded in the node map or the connection list,
so the `clearNodes` at the start of the next update empties the scene -
no orphaned scene objects remain. -/
theorem C10_everyObjectTracked (s : NMState) (d : RawMessage)
    (hft : fullyTracked s) (hg : goodNames d = true) :
    fullyTracked (updateNeuralMap s d)
    ∧ (clearNodes (updateNeuralMap s d)).scene = [] := by
  have h1 := fullyTracked_update s d hft hg
  exact ⟨h1, clearNodes_of_fullyTracked _ h1⟩

/-- Witness for C10: the tracking theorem applied to the initial state
and a concrete two-module snapshot. -/
theorem C10_witness :
    fullyTracked (updateNeuralMap initNeuralMap {
        consciousness_level := some "lvl", awareness_score := some (1/3),
        modules := some [{ name := "alpha", activity_level := some (1/5) },
          { name := "beta", activity_level := none }] })
    ∧ (clearNodes (updateNeuralMap initNeuralMap {
        consciousness_level := some "lvl", awareness_score := some (1/3),
        modules := some [{ name := "alpha", activity_level := some (1/5) },
          { name := "beta", activity_level := none }] })).scene = [] :=
  C10_everyObjectTracked initNeuralMap
    { consciousness_level := some "lvl", awareness_score := some (1/3),
      modules := some [{ name := "alpha", activity_level := some (1/5) },
        { name := "beta", activity_level := none }] }
    (by decide) (by decide)
